import Mathlib

/-!
Shallow embedding of the botPlayer Telegram-bot core (src/unnamed/part_001):
per-user entitlement store, rate limiter, external-lookup classification,
response formatter and the lookup pipeline, together with proofs of the
spec's testable properties.

Conventions of the embedding:
* Timestamps are `Nat` milliseconds since the Unix epoch (`Date.now()`).
* The JSON users file is abstracted to its in-memory content
  `Store := String → Option UserRecord`; every load/mutate/save cycle of the
  source is one pure store transformation.
* The rate-limiter `Map` is a total function `String → Nat` in which the
  value `0` means "no timestamp stored": the source guards with
  `lastMessage && ...`, and in JavaScript both a missing entry (`undefined`)
  and a stored `0` are falsy, so the code cannot distinguish them.
-/

namespace BotPlayer

/-! ## JavaScript string primitives

The source uses `String.prototype.replace` with global literal or simple
regex patterns, `includes`, `toLowerCase`, `trim`, `charAt(0).toUpperCase()`
and `slice(1).replace(/([A-Z])/g, ' $1')`.  They are modelled here on
`List Char` so that every definition is kernel-computable. -/

/-- `listStartsWith pat l` : `l` begins with `pat`. -/
def listStartsWith : List Char → List Char → Bool
  | [], _ => true
  | _ :: _, [] => false
  | p :: ps, c :: cs => p = c && listStartsWith ps cs

/-- JavaScript `replace` with a global single-character pattern:
every occurrence of `c` becomes `rep`; replacement text is never
rescanned (none of the source's replacements reintroduces its own
pattern). -/
def replaceChar (c : Char) (rep : List Char) (l : List Char) : List Char :=
  l.flatMap (fun x => if x = c then rep else [x])

/-- `s.replace(/c/g, rep)` on strings. -/
def strReplaceChar (s : String) (c : Char) (rep : String) : String :=
  String.mk (replaceChar c rep.data s.data)

/-- `replace(/!!/g, ', ')` (part_001 line 285): leftmost, non-overlapping,
so `'!!!'` rewrites its first two bangs and keeps the third. -/
def replaceBangBang : List Char → List Char
  | '!' :: '!' :: rest => ',' :: ' ' :: replaceBangBang rest
  | c :: rest => c :: replaceBangBang rest
  | [] => []

/-- `listContainsSub pat l` : `pat` occurs as a contiguous run in `l`. -/
def listContainsSub (pat : List Char) : List Char → Bool
  | [] => listStartsWith pat []
  | c :: cs => listStartsWith pat (c :: cs) || listContainsSub pat cs

/-- JavaScript `s.includes(pat)`. -/
def strContains (s pat : String) : Bool :=
  listContainsSub pat.data s.data

/-- JavaScript `s.toLowerCase()` (ASCII range, which covers every key and
sentinel string the source compares). -/
def lowerStr (s : String) : String :=
  String.mk (s.data.map Char.toLower)

/-- Characters matched by the `\s` class / JavaScript `trim`. -/
def isJsSpace (c : Char) : Bool := c.isWhitespace

/-- Drop whitespace from both ends of a character list. -/
def trimChars (l : List Char) : List Char :=
  ((l.dropWhile isJsSpace).reverse.dropWhile isJsSpace).reverse

/-- JavaScript `s.trim()`. -/
def trimStr (s : String) : String :=
  String.mk (trimChars s.data)

/-- `escapeHtmlEntities` (part_001 lines 99-104): escape `&`, `<`, `>`
in that order. -/
def escapeHtmlEntities (text : String) : String :=
  strReplaceChar (strReplaceChar (strReplaceChar text '&' "&amp;") '<' "&lt;") '>' "&gt;"

/-! ## Rate limiter (part_001 lines 22-35) -/

/-- `RATE_LIMIT_MS = 2000`. -/
def RATE_LIMIT_MS : Nat := 2000

/-- The `userLastMessage` map.  `0` encodes "no entry": the guard
`lastMessage && ...` treats `undefined` and `0` identically. -/
def RLState : Type := String → Nat

/-- `isRateLimited(chatId)`: returns `(limited, updated map)`.  A call is
limited when a (truthy) timestamp is stored and less than `RATE_LIMIT_MS`
elapsed; otherwise the map records `now` for `chatId` and the call passes.
`now - lastMessage` is JavaScript subtraction of clock readings; with
`now < lastMessage` both the source (negative value) and the `Nat`
truncation (`0`) fall below the threshold, so `Nat` subtraction is exact
here. -/
def isRateLimited (st : RLState) (chatId : String) (now : Nat) : Bool × RLState :=
  let lastMessage := st chatId
  if lastMessage ≠ 0 ∧ now - lastMessage < RATE_LIMIT_MS then
    (true, st)
  else
    (false, fun j => if j = chatId then now else st j)

/-- Run a sequence of `isRateLimited` calls for one chat id, keeping only
the evolving map. -/
def runLimiter (st : RLState) (chatId : String) : List Nat → RLState
  | [] => st
  | t :: ts => runLimiter (isRateLimited st chatId t).2 chatId ts

/-! ## User record store (part_001 lines 114-208, 560-604) -/

/-- One entry of `users.json`, as created and mutated by the source. -/
structure UserRecord where
  chatId : String
  username : String
  firstName : String
  joinDate : Nat
  freeSearchesUsed : Nat
  totalSearches : Nat
  isSubscribed : Bool
  subscriptionExpiry : Option Nat
  deriving DecidableEq, Repr

/-- The in-memory content of the whole users file, keyed by stringified
chat id. -/
def Store : Type := String → Option UserRecord

/-- A partial update passed to `updateUser`: `none` means the property is
absent from the `updates` object and `Object.assign` leaves the field
alone. -/
structure UserUpdates where
  chatId : Option String := none
  username : Option String := none
  firstName : Option String := none
  joinDate : Option Nat := none
  freeSearchesUsed : Option Nat := none
  totalSearches : Option Nat := none
  isSubscribed : Option Bool := none
  subscriptionExpiry : Option (Option Nat) := none
  deriving DecidableEq, Repr

/-- `Object.assign(record, updates)`. -/
def applyUpdates (u : UserRecord) (up : UserUpdates) : UserRecord :=
  { chatId := up.chatId.getD u.chatId
    username := up.username.getD u.username
    firstName := up.firstName.getD u.firstName
    joinDate := up.joinDate.getD u.joinDate
    freeSearchesUsed := up.freeSearchesUsed.getD u.freeSearchesUsed
    totalSearches := up.totalSearches.getD u.totalSearches
    isSubscribed := up.isSubscribed.getD u.isSubscribed
    subscriptionExpiry := up.subscriptionExpiry.getD u.subscriptionExpiry }

/-- The record `getUser` creates for a previously unseen chat id
(part_001 lines 158-167). -/
def freshUser (userId : String) (now : Nat) : UserRecord :=
  { chatId := userId
    username := ""
    firstName := ""
    joinDate := now
    freeSearchesUsed := 0
    totalSearches := 0
    isSubscribed := false
    subscriptionExpiry := none }

/-- `getUser(chatId)` (part_001 lines 152-173): return the stored record,
creating and persisting a default one when absent. -/
def getUser (s : Store) (userId : String) (now : Nat) : UserRecord × Store :=
  match s userId with
  | some u => (u, s)
  | none =>
    let u := freshUser userId now
    (u, fun j => if j = userId then some u else s j)

/-- `updateUser(chatId, updates)` (part_001 lines 176-184): merge `updates`
into the stored record; a no-op when no record exists. -/
def updateUser (s : Store) (userId : String) (up : UserUpdates) : Store :=
  match s userId with
  | none => s
  | some u => fun j => if j = userId then some (applyUpdates u up) else s j

/-- Reasons returned by `canUserSearch`; the source uses the strings
`'subscribed'`, `'free_trial'`, `'limit_reached'`. -/
inductive SearchReason where
  | subscribed
  | freeTrial
  | limitReached
  deriving DecidableEq, Repr

/-- Result object of `canUserSearch`. -/
structure SearchPermission where
  allowed : Bool
  reason : SearchReason
  deriving DecidableEq, Repr

/-- `canUserSearch(chatId)` (part_001 lines 186-208).  The guard
`user.isSubscribed && user.subscriptionExpiry` requires a truthy expiry
(an ISO string, modelled `some exp`); `expiryDate > new Date()` compares
strictly; an expired subscription is written back as inactive before the
free-trial fallthrough. -/
def canUserSearch (s : Store) (chatId : String) (now : Nat) :
    SearchPermission × Store :=
  let g := getUser s chatId now
  let user := g.1
  let s1 := g.2
  match user.isSubscribed, user.subscriptionExpiry with
  | true, some exp =>
    if now < exp then
      (⟨true, .subscribed⟩, s1)
    else
      let s2 := updateUser s1 chatId
        { isSubscribed := some false, subscriptionExpiry := some none }
      if user.freeSearchesUsed < 1 then
        (⟨true, .freeTrial⟩, s2)
      else
        (⟨false, .limitReached⟩, s2)
  | _, _ =>
    if user.freeSearchesUsed < 1 then
      (⟨true, .freeTrial⟩, s1)
    else
      (⟨false, .limitReached⟩, s1)

/-- The `/adduser` handler's store effect (part_001 lines 560-586):
`updateUser(userId, { isSubscribed: true, subscriptionExpiry })` where
`expiry` is `new Date()` advanced by the granted number of days. -/
def grantSubscription (s : Store) (userId : String) (expiry : Nat) : Store :=
  updateUser s userId
    { isSubscribed := some true, subscriptionExpiry := some (some expiry) }

/-- The `/removeuser` handler's store effect (part_001 lines 589-604). -/
def revokeSubscription (s : Store) (userId : String) : Store :=
  updateUser s userId
    { isSubscribed := some false, subscriptionExpiry := some none }

/-- The usage counters of one id, `(totalSearches, freeSearchesUsed)`,
reading an absent record as the `(0, 0)` it would be created with. -/
def usageOf (s : Store) (userId : String) : Nat × Nat :=
  match s userId with
  | some u => (u.totalSearches, u.freeSearchesUsed)
  | none => (0, 0)

/-- Store invariant: an active subscription always carries an expiry. -/
def InvStore (s : Store) : Prop :=
  ∀ userId u, s userId = some u → u.isSubscribed = true →
    u.subscriptionExpiry ≠ none

/-! ## Lookup client (part_001 lines 213-240) -/

/-- Abstraction of `response.data` / the value handed to `formatResponse`:
`null`-ish bodies, plain-text bodies, one JSON object (its
`Object.entries`, values stringified), or a JSON array of objects. -/
inductive AxiosData where
  | nullData
  | strData (s : String)
  | objData (fields : List (String × String))
  | arrData (items : List (List (String × String)))
  deriving DecidableEq, Repr

/-- First value stored under a key (JavaScript property access on the
modelled object). -/
def lookupField (k : String) (fields : List (String × String)) : Option String :=
  (fields.find? (fun p => p.1 = k)).map (fun p => p.2)

/-- JavaScript truthiness of `response.data`. -/
def dataTruthy : AxiosData → Bool
  | .nullData => false
  | .strData s => s ≠ ""
  | .objData _ => true
  | .arrData _ => true

/-- `response.data && typeof response.data === 'string' &&
response.data.includes('not found')`. -/
def notFoundSignal : AxiosData → Bool
  | .strData s => s ≠ "" && strContains s "not found"
  | _ => false

/-- `response.data && (response.data.error || response.data.status === 'error')`.
Only an object body has `error` / `status` properties; an empty-string
`error` value is falsy. -/
def apiErrorSignal (d : AxiosData) : Bool :=
  dataTruthy d &&
    match d with
    | .objData fields =>
      (match lookupField "error" fields with
       | some v => v ≠ ""
       | none => false) || lookupField "status" fields = some "error"
    | _ => false

/-- Stand-in for `JSON.stringify(response.data)`.  Its exact text is never
relied on by any claim; it only feeds the `ApiError` message, which is
escaped wholesale. -/
def jsonStringifyModel : AxiosData → String
  | .nullData => "null"
  | .strData s => "\"" ++ s ++ "\""
  | .objData _ => "{...}"
  | .arrData _ => "[...]"

/-- `response.data.error || JSON.stringify(response.data)`. -/
def apiErrorText (d : AxiosData) : String :=
  match d with
  | .objData fields =>
    match lookupField "error" fields with
    | some v => if v ≠ "" then v else jsonStringifyModel d
    | none => jsonStringifyModel d
  | _ => jsonStringifyModel d

/-- One resolution of the axios request: a delivered response
`(status, statusText, data)`, or a thrown error with its `code` and
`message`. -/
inductive FetchOutcome where
  | response (status : Nat) (statusText : String) (data : AxiosData)
  | exn (code : Option String) (message : String)
  deriving DecidableEq, Repr

/-- The `{success, data}` / `{success, error}` object `fetchFlipcartInfo`
resolves to. -/
inductive FetchResult where
  | ok (data : AxiosData)
  | err (error : String)
  deriving DecidableEq, Repr

/-- `timeout: 15000` in the axios request config (part_001 line 217). -/
def requestTimeoutMs : Nat := 15000

/-- `fetchFlipcartInfo(mobile)` (part_001 lines 213-240) as a function of
the request's outcome: the 'not found' marker check, then the 2xx branch
(structured API error vs. success), then the non-2xx branch, and the
catch block distinguishing `ECONNABORTED` from other failures. -/
def fetchFlipcartInfo : FetchOutcome → FetchResult
  | .response status statusText d =>
    if notFoundSignal d then
      .err "The API returned a \"not found\" response for this number."
    else if 200 ≤ status ∧ status < 300 then
      if apiErrorSignal d then
        .err ("API reported an issue: " ++ escapeHtmlEntities (apiErrorText d))
      else
        .ok d
    else
      .err ("HTTP Error: " ++ toString status ++ " " ++ statusText)
  | .exn code message =>
    let errorMessage :=
      if code = some "ECONNABORTED" then "Request timed out (15s)." else message
    .err ("Network/API failure: " ++ escapeHtmlEntities errorMessage)

/-- The spec's six-way result taxonomy for a lookup. -/
inductive LookupResult where
  | notFound
  | apiError (message : String)
  | httpError (statusCode : Nat)
  | timeout
  | networkFailure (message : String)
  | ok (payload : AxiosData)
  deriving DecidableEq, Repr

/-- The branch structure of `fetchFlipcartInfo`, with each branch named by
its spec variant (`NotFound` / `ApiError` / `Success` / `HttpError` /
`Timeout` / `NetworkFailure`). -/
def classifyFetch : FetchOutcome → LookupResult
  | .response status _ d =>
    if notFoundSignal d then .notFound
    else if 200 ≤ status ∧ status < 300 then
      if apiErrorSignal d then .apiError (apiErrorText d) else .ok d
    else .httpError status
  | .exn code message =>
    if code = some "ECONNABORTED" then .timeout else .networkFailure message

/-! ## Response formatter (part_001 lines 245-315) -/

/-- Display category of a formatted field, one per branch of the
key-specific formatting in `formatResponse` (the source tags the branch
with a distinguishing emoji prefix). -/
inductive Category where
  | identity
  | person
  | mobile
  | region
  | address
  | general
  deriving DecidableEq, Repr

/-- One output line of `formatResponse`:
`prefix <b>displayKey:</b> <code>displayValue</code>`. -/
structure DisplayField where
  label : String
  value : String
  category : Category
  deriving DecidableEq, Repr

/-- Single-pass scanner implementing the global replace
`replace(/,(\s*,){1,}/g, ', ')` (part_001 line 287).  Outside a match
attempt the mode is `none` and characters are copied.  At a comma the
mode becomes `some (extraCommas, pending)`: the greedy regex has consumed
`1 + extraCommas` commas so far, `pending` (reversed) holds the
whitespace seen since the last consumed comma.  A further comma extends
the match and discards `pending` (it is inside the match); any other
character ends the attempt: with `extraCommas = 0` the lone comma did not
match and is kept, otherwise the whole run is replaced by `', '`, and the
trailing whitespace after its last comma is restored.  Matched text is
never rescanned, as with a JavaScript global replace. -/
def collapseAux : Option (Nat × List Char) → List Char → List Char
  | none, [] => []
  | none, ',' :: rest => collapseAux (some (0, [])) rest
  | none, c :: rest => c :: collapseAux none rest
  | some (k, pending), c :: rest =>
    if isJsSpace c then collapseAux (some (k, c :: pending)) rest
    else if c = ',' then collapseAux (some (k + 1, [])) rest
    else
      (if k = 0 then [','] else [',', ' ']) ++ pending.reverse ++
        c :: collapseAux none rest
  | some (k, pending), [] =>
    (if k = 0 then [','] else [',', ' ']) ++ pending.reverse

/-- `replace(/,(\s*,){1,}/g, ', ')` on strings. -/
def collapseCommaRuns (s : String) : String :=
  String.mk (collapseAux none s.data)

/-- A leading/trailing separator character per the class `[,\s]`. -/
def isSepChar (c : Char) : Bool := c = ',' || isJsSpace c

/-- `replace(/^[,\s]+|[,\s]+$/g, '')` (part_001 line 289): strip the
leading and the trailing run of commas/whitespace. -/
def stripEdgeSeps (s : String) : String :=
  String.mk (((s.data.dropWhile isSepChar).reverse.dropWhile isSepChar).reverse)

/-- The address clean-up chain of `formatResponse` (part_001 lines
284-289): `!!` → `', '`, then `!` → `', '`, collapse repeated commas,
`trim`, strip edge separators. -/
def cleanAddress (s : String) : String :=
  stripEdgeSeps (trimStr (collapseCommaRuns
    (strReplaceChar (String.mk (replaceBangBang s.data)) '!' ", ")))

/-- The value filter of `formatResponse` (part_001 line 265): keep a
stringified value iff it is truthy and not `'not found'` / `'[not set]'`
case-insensitively. -/
def keepValue (v : String) : Bool :=
  v ≠ "" && lowerStr v ≠ "not found" && lowerStr v ≠ "[not set]"

/-- Insert a space before each ASCII capital:
`replace(/([A-Z])/g, ' $1')`. -/
def spaceCaps (l : List Char) : List Char :=
  l.flatMap (fun c => if c.isUpper then [' ', c] else [c])

/-- `key.charAt(0).toUpperCase() + key.slice(1).replace(/([A-Z])/g, ' $1').trim()`
(part_001 line 267). -/
def displayKeyOf (key : String) : String :=
  match key.data with
  | [] => ""
  | c :: rest => String.mk (c.toUpper :: trimChars (spaceCaps rest))

/-- The per-key formatting branch of `formatResponse` (part_001 lines
272-291): fixed relabel for `id_number`, category tags for
`name`/`mobile`/`alt_mobile`/`circle`/`address`, address clean-up, HTML
escaping of the displayed value, default category otherwise. -/
def mkField (key v : String) : DisplayField :=
  let kl := lowerStr key
  if kl = "id_number" then
    ⟨"Aadhaar No.", escapeHtmlEntities v, .identity⟩
  else if kl = "name" then
    ⟨displayKeyOf key, escapeHtmlEntities v, .person⟩
  else if kl = "mobile" ∨ kl = "alt_mobile" then
    ⟨displayKeyOf key, escapeHtmlEntities v, .mobile⟩
  else if kl = "circle" then
    ⟨displayKeyOf key, escapeHtmlEntities v, .region⟩
  else if kl = "address" then
    ⟨displayKeyOf key, escapeHtmlEntities (cleanAddress v), .address⟩
  else
    ⟨displayKeyOf key, escapeHtmlEntities v, .general⟩

/-- The field loop of `formatResponse` over one object's entries: filter
by `keepValue`, then format. -/
def formatFields (item : List (String × String)) : List DisplayField :=
  item.filterMap (fun p => if keepValue p.2 then some (mkField p.1 p.2) else none)

/-- `Array.isArray(data) ? data : [data]` followed by the
`typeof item === 'object'` guard: the per-item field lists of
`formatResponse`.  A non-object single item contributes no item at all. -/
def formatResponseFields (d : AxiosData) : List (List DisplayField) :=
  match d with
  | .arrData items => items.map formatFields
  | .objData fields => [formatFields fields]
  | _ => []

/-- `foundAnyData` of `formatResponse`. -/
def foundAnyData (d : AxiosData) : Bool :=
  (formatResponseFields d).any (fun fl => !fl.isEmpty)

/-! ## Request pipeline (part_001 lines 318-393) -/

/-- The terminal outcome `handleMobileNumber` produces for its chat. -/
inductive BotReply where
  | noReply
  | limitReachedMsg
  | successMsg (fields : List (List DisplayField)) (freeNotice : Bool)
  | errorMsg (error : String)
  deriving DecidableEq, Repr

/-- `handleMobileNumber(chatId, mobile)` (part_001 lines 318-393) as a
state transformer, parametrised by the resolution of
`fetchFlipcartInfo`: rate-limit gate (silent drop), entitlement gate
(subscription message), then on a successful fetch the usage commit
(`totalSearches + 1`, and `freeSearchesUsed + 1` exactly on the
`free_trial` reason) and the formatted reply with the one-time free-search
notice; on a failed fetch the error reply with no store write. -/
def handleMobileNumber (rl : RLState) (s : Store) (chatId : String)
    (now : Nat) (result : FetchResult) : RLState × Store × BotReply :=
  let rlRes := isRateLimited rl chatId now
  if rlRes.1 then
    (rlRes.2, s, .noReply)
  else
    let pr := canUserSearch s chatId now
    let perm := pr.1
    let s1 := pr.2
    if !perm.allowed then
      (rlRes.2, s1, .limitReachedMsg)
    else
      match result with
      | .ok data =>
        let g := getUser s1 chatId now
        let user := g.1
        let s2 := g.2
        let up : UserUpdates :=
          { totalSearches := some (user.totalSearches + 1)
            freeSearchesUsed :=
              if perm.reason = .freeTrial then some (user.freeSearchesUsed + 1)
              else none }
        let s3 := updateUser s2 chatId up
        (rlRes.2, s3,
          .successMsg (formatResponseFields data)
            (perm.reason = .freeTrial ∧ user.freeSearchesUsed = 0))
      | .err e => (rlRes.2, s1, .errorMsg e)

/-! ## Shared helper lemmas and sample data -/

/-- A concrete record that has consumed its free trial and holds no
subscription. -/
def sampleUsedUser : UserRecord :=
  { chatId := "42"
    username := "u"
    firstName := "f"
    joinDate := 10
    freeSearchesUsed := 1
    totalSearches := 1
    isSubscribed := false
    subscriptionExpiry := none }

/-- A concrete one-record store. -/
def sampleStore : Store :=
  fun j => if j = "42" then some sampleUsedUser else none

theorem sampleStore_inv : InvStore sampleStore := by
  intro userId u h hsub
  unfold sampleStore at h
  split at h
  · cases h
    exact absurd hsub (by decide)
  · cases h

/-- Unfolding `getUser` when the record exists. -/
theorem getUser_some (s : Store) (chatId : String) (now : Nat)
    (u : UserRecord) (h : s chatId = some u) :
    getUser s chatId now = (u, s) := by
  unfold getUser
  rw [h]

/-- Unfolding `getUser` when the record is absent: the default record is
created and persisted. -/
theorem getUser_none (s : Store) (chatId : String) (now : Nat)
    (h : s chatId = none) :
    getUser s chatId now =
      (freshUser chatId now,
       fun j => if j = chatId then some (freshUser chatId now) else s j) := by
  unfold getUser
  rw [h]

/-- Unfolding `updateUser` when the record is absent. -/
theorem updateUser_absent (s : Store) (userId : String) (up : UserUpdates)
    (h : s userId = none) : updateUser s userId up = s := by
  unfold updateUser
  rw [h]

/-- Unfolding `updateUser` when the record exists. -/
theorem updateUser_present (s : Store) (userId : String) (up : UserUpdates)
    (u : UserRecord) (h : s userId = some u) :
    updateUser s userId up =
      fun j => if j = userId then some (applyUpdates u up) else s j := by
  unfold updateUser
  rw [h]

/-- `canUserSearch` on an absent record: a default record is created and
the free trial is available. -/
theorem canUserSearch_of_none (s : Store) (chatId : String) (now : Nat)
    (h : s chatId = none) :
    canUserSearch s chatId now =
      (⟨true, .freeTrial⟩,
       fun j => if j = chatId then some (freshUser chatId now) else s j) := by
  unfold canUserSearch
  rw [getUser_none s chatId now h]
  simp [freshUser]

/-- `canUserSearch` on an unsubscribed record: pure free-trial check, no
store write. -/
theorem canUserSearch_of_notSub (s : Store) (chatId : String) (now : Nat)
    (u : UserRecord) (h : s chatId = some u) (hsb : u.isSubscribed = false) :
    canUserSearch s chatId now =
      ((if u.freeSearchesUsed < 1 then ⟨true, .freeTrial⟩
        else ⟨false, .limitReached⟩), s) := by
  unfold canUserSearch
  rw [getUser_some s chatId now u h]
  cases hex : u.subscriptionExpiry <;> by_cases hf : u.freeSearchesUsed < 1 <;>
    simp [hsb, hex, hf]

/-- `canUserSearch` on a record marked subscribed but with a null expiry
(the guard `user.subscriptionExpiry` is falsy): free-trial check, no
write. -/
theorem canUserSearch_of_subNoExpiry (s : Store) (chatId : String) (now : Nat)
    (u : UserRecord) (h : s chatId = some u) (hsb : u.isSubscribed = true)
    (hex : u.subscriptionExpiry = none) :
    canUserSearch s chatId now =
      ((if u.freeSearchesUsed < 1 then ⟨true, .freeTrial⟩
        else ⟨false, .limitReached⟩), s) := by
  unfold canUserSearch
  rw [getUser_some s chatId now u h]
  by_cases hf : u.freeSearchesUsed < 1 <;> simp [hsb, hex, hf]

/-- `canUserSearch` on a live subscription: allowed, `subscribed`, no
write. -/
theorem canUserSearch_of_active (s : Store) (chatId : String) (now : Nat)
    (u : UserRecord) (exp : Nat) (h : s chatId = some u)
    (hsb : u.isSubscribed = true) (hex : u.subscriptionExpiry = some exp)
    (hlt : now < exp) :
    canUserSearch s chatId now = (⟨true, .subscribed⟩, s) := by
  unfold canUserSearch
  rw [getUser_some s chatId now u h]
  simp [hsb, hex, hlt]

/-- `canUserSearch` on an expired subscription: lazy-expiry write-back,
then the free-trial check. -/
theorem canUserSearch_of_expired (s : Store) (chatId : String) (now : Nat)
    (u : UserRecord) (exp : Nat) (h : s chatId = some u)
    (hsb : u.isSubscribed = true) (hex : u.subscriptionExpiry = some exp)
    (hge : ¬ now < exp) :
    (canUserSearch s chatId now).1 =
      (if u.freeSearchesUsed < 1 then ⟨true, .freeTrial⟩
       else ⟨false, .limitReached⟩) ∧
    (canUserSearch s chatId now).2 =
      updateUser s chatId
        { isSubscribed := some false, subscriptionExpiry := some none } := by
  constructor <;>
    (unfold canUserSearch
     rw [getUser_some s chatId now u h]
     by_cases hf : u.freeSearchesUsed < 1 <;> simp [hsb, hex, hge, hf])

/-- The lazy-expiry write never touches the usage counters. -/
theorem usageOf_updateUser_sub (s : Store) (chatId : String) (j : String) :
    usageOf (updateUser s chatId
      { isSubscribed := some false, subscriptionExpiry := some none }) j =
      usageOf s j := by
  cases hsu : s chatId with
  | none => rw [updateUser_absent s chatId _ hsu]
  | some u =>
    rw [updateUser_present s chatId _ u hsu]
    by_cases hj : j = chatId
    · subst hj
      simp [usageOf, applyUpdates, hsu]
    · simp [usageOf, hj]

/-- `canUserSearch` never changes the usage counters of any id: it only
creates default records and rewrites subscription fields. -/
theorem usageOf_canUserSearch (s : Store) (chatId : String) (now : Nat)
    (j : String) : usageOf (canUserSearch s chatId now).2 j = usageOf s j := by
  cases hsu : s chatId with
  | none =>
    rw [canUserSearch_of_none s chatId now hsu]
    by_cases hj : j = chatId
    · subst hj
      simp [usageOf, freshUser, hsu]
    · simp [usageOf, hj]
  | some u =>
    cases hsb : u.isSubscribed with
    | false => rw [canUserSearch_of_notSub s chatId now u hsu hsb]
    | true =>
      cases hex : u.subscriptionExpiry with
      | none => rw [canUserSearch_of_subNoExpiry s chatId now u hsu hsb hex]
      | some exp =>
        by_cases hlt : now < exp
        · rw [canUserSearch_of_active s chatId now u exp hsu hsb hex hlt]
        · rw [(canUserSearch_of_expired s chatId now u exp hsu hsb hex hlt).2]
          exact usageOf_updateUser_sub s chatId j

/-- A failed fetch leaves every id's usage counters untouched: the only
store writes on that path are the entitlement check's. -/
theorem usageOf_handle_err (rl : RLState) (s : Store) (chatId : String)
    (now : Nat) (e : String) (j : String) :
    usageOf (handleMobileNumber rl s chatId now (.err e)).2.1 j = usageOf s j := by
  unfold handleMobileNumber
  by_cases hrl : (isRateLimited rl chatId now).1
  · simp [hrl, usageOf]
  · simp [hrl]
    split
    · exact usageOf_canUserSearch s chatId now j
    · exact usageOf_canUserSearch s chatId now j

/-- Claim C1: a fresh id's first `canUserSearch` is allowed with reason
`free_trial`; an id that has used its single free search and holds no
subscription is denied with reason `limit_reached`, and the check writes
nothing back, so every repetition answers the same. -/
theorem claim_C1 :
    (∀ (s : Store) (chatId : String) (now : Nat),
      s chatId = none →
      (canUserSearch s chatId now).1 = ⟨true, .freeTrial⟩)
  ∧ (∀ (s : Store) (chatId : String) (now : Nat) (u : UserRecord),
      s chatId = some u → u.freeSearchesUsed = 1 → u.isSubscribed = false →
      (canUserSearch s chatId now).1 = ⟨false, .limitReached⟩ ∧
      (canUserSearch s chatId now).2 = s) := by
  constructor
  · intro s chatId now h
    rw [canUserSearch_of_none s chatId now h]
  · intro s chatId now u hu h1 hsub
    rw [canUserSearch_of_notSub s chatId now u hu hsub, h1]
    exact ⟨rfl, rfl⟩

theorem claim_C1_witness :
    (canUserSearch (fun _ => none) "42" 5).1 = ⟨true, .freeTrial⟩ ∧
    (canUserSearch sampleStore "42" 5).1 = ⟨false, .limitReached⟩ :=
  ⟨claim_C1.1 (fun _ => none) "42" 5 rfl,
   (claim_C1.2 sampleStore "42" 5 sampleUsedUser rfl rfl rfl).1⟩

/-- Claim C2 (amended): granting a subscription only reaches ids whose
record already exists (`updateUser` never auto-creates).  For such an id,
`canUserSearch` answers `subscribed` while the granted expiry is strictly
in the future; at or after the expiry it writes the record back inactive
with a null expiry and answers by prior trial usage. -/
theorem claim_C2 (s : Store) (chatId : String) (u : UserRecord)
    (expiry now : Nat) (hu : s chatId = some u) :
    (now < expiry →
      (canUserSearch (grantSubscription s chatId expiry) chatId now).1 =
        ⟨true, .subscribed⟩)
  ∧ (expiry ≤ now →
      (∃ w, (canUserSearch (grantSubscription s chatId expiry) chatId now).2 chatId
          = some w ∧ w.isSubscribed = false ∧ w.subscriptionExpiry = none)
    ∧ (canUserSearch (grantSubscription s chatId expiry) chatId now).1 =
        (if u.freeSearchesUsed < 1 then ⟨true, .freeTrial⟩
         else ⟨false, .limitReached⟩)) := by
  have hs' : grantSubscription s chatId expiry chatId =
      some (applyUpdates u
        { isSubscribed := some true, subscriptionExpiry := some (some expiry) }) := by
    unfold grantSubscription
    rw [updateUser_present s chatId _ u hu]
    simp
  constructor
  · intro hlt
    rw [canUserSearch_of_active (grantSubscription s chatId expiry) chatId now
      _ expiry hs' (by simp [applyUpdates]) (by simp [applyUpdates]) hlt]
  · intro hge
    have hnot : ¬ now < expiry := Nat.not_lt.mpr hge
    have hexp := canUserSearch_of_expired (grantSubscription s chatId expiry)
      chatId now _ expiry hs' (by simp [applyUpdates]) (by simp [applyUpdates]) hnot
    constructor
    · refine ⟨applyUpdates (applyUpdates u
        { isSubscribed := some true, subscriptionExpiry := some (some expiry) })
        { isSubscribed := some false, subscriptionExpiry := some none },
        ?_, by simp [applyUpdates], by simp [applyUpdates]⟩
      rw [hexp.2, updateUser_present _ chatId _ _ hs']
      simp
    · rw [hexp.1]
      simp [applyUpdates]

/-- The claim as frozen quantifies over every id: on an id with no stored
record the `/adduser` write is a no-op (`updateUser` never creates), so
the next `canUserSearch` still answers `free_trial`, not `subscribed`. -/
theorem claim_C2_counterexample :
    (canUserSearch (grantSubscription (fun _ => none) "1" 100) "1" 0).1.reason ≠
      SearchReason.subscribed := by decide

theorem claim_C2_witness :
    (canUserSearch (grantSubscription sampleStore "42" 50) "42" 10).1 =
      ⟨true, .subscribed⟩ ∧
    (canUserSearch (grantSubscription sampleStore "42" 50) "42" 60).1 =
      ⟨false, .limitReached⟩ := by
  have h := claim_C2 sampleStore "42" sampleUsedUser 50 10 rfl
  have h2 := claim_C2 sampleStore "42" sampleUsedUser 50 60 rfl
  refine ⟨h.1 (by decide), ?_⟩
  have := (h2.2 (by decide)).2
  simpa using this

/-- Claim C3: a failed fetch never mutates the usage counters — after
`handleMobileNumber` with any error result, every id's
`(totalSearches, freeSearchesUsed)` pair reads as before; and a usage
change can only come from a successful fetch. -/
theorem claim_C3 :
    (∀ (rl : RLState) (s : Store) (chatId : String) (now : Nat) (e : String)
      (j : String),
      usageOf (handleMobileNumber rl s chatId now (.err e)).2.1 j = usageOf s j)
  ∧ (∀ (rl : RLState) (s : Store) (chatId : String) (now : Nat)
      (result : FetchResult) (j : String),
      usageOf (handleMobileNumber rl s chatId now result).2.1 j ≠ usageOf s j →
      ∃ d, result = .ok d) := by
  have herr : ∀ (rl : RLState) (s : Store) (chatId : String) (now : Nat)
      (e : String) (j : String),
      usageOf (handleMobileNumber rl s chatId now (.err e)).2.1 j = usageOf s j := by
    intro rl s chatId now e j
    unfold handleMobileNumber
    by_cases hrl : (isRateLimited rl chatId now).1
    · simp [hrl]
    · simp only [hrl, if_false, Bool.false_eq_true]
      split
      · exact usageOf_canUserSearch s chatId now j
      · exact usageOf_canUserSearch s chatId now j
  refine ⟨herr, ?_⟩
  intro rl s chatId now result j hne
  cases result with
  | ok d => exact ⟨d, rfl⟩
  | err e => exact absurd (herr rl s chatId now e j) hne

theorem claim_C3_witness :
    usageOf (handleMobileNumber (fun _ => 0) (fun _ => none) "5" 1000
      (.err "boom")).2.1 "5" = usageOf (fun _ => none) "5" ∧
    ∃ d, (FetchResult.ok .nullData) = FetchResult.ok d :=
  ⟨claim_C3.1 (fun _ => 0) (fun _ => none) "5" 1000 "boom" "5",
   claim_C3.2 (fun _ => 0) (fun _ => none) "5" 1000 (.ok .nullData) "5"
     (by decide)⟩

/-- Claim C4: `isRateLimited` passes a call (returns `false`, the spec's
`allow = true`) exactly when no timestamp is stored or at least
`RATE_LIMIT_MS` elapsed since it; every passing call stores the current
time; hence for one id two calls within the window pass then fail, and a
call at least the window after the first passes again.  (`0 < t1` says
the first call does not happen at the exact Unix epoch, whose stored
timestamp the source's truthiness test reads as absent.) -/
theorem claim_C4 :
    RATE_LIMIT_MS = 2000
  ∧ (∀ (st : RLState) (chatId : String) (now : Nat),
      (isRateLimited st chatId now).1 = false ↔
        (st chatId = 0 ∨ RATE_LIMIT_MS ≤ now - st chatId))
  ∧ (∀ (st : RLState) (chatId : String) (now : Nat),
      (isRateLimited st chatId now).1 = false →
      (isRateLimited st chatId now).2 chatId = now)
  ∧ (∀ (st : RLState) (chatId : String) (t1 t2 t3 : Nat),
      st chatId = 0 → 0 < t1 → t2 - t1 < RATE_LIMIT_MS →
      RATE_LIMIT_MS ≤ t3 - t1 →
      (isRateLimited st chatId t1).1 = false ∧
      (isRateLimited (isRateLimited st chatId t1).2 chatId t2).1 = true ∧
      (isRateLimited
        (isRateLimited (isRateLimited st chatId t1).2 chatId t2).2
        chatId t3).1 = false) := by
  refine ⟨rfl, ?_, ?_, ?_⟩
  · intro st chatId now
    unfold isRateLimited RATE_LIMIT_MS
    dsimp only
    split <;> rename_i hcond <;> simp <;> omega
  · intro st chatId now h
    unfold isRateLimited at h ⊢
    dsimp only at h ⊢
    split <;> simp_all
  · intro st chatId t1 t2 t3 h0 hpos h12 h13
    have hnc1 : ¬(st chatId ≠ 0 ∧ t1 - st chatId < RATE_LIMIT_MS) := by
      simp [h0]
    have e1 : isRateLimited st chatId t1 =
        (false, fun j => if j = chatId then t1 else st j) := by
      unfold isRateLimited
      dsimp only
      rw [if_neg hnc1]
    have hc2 : ((fun j => if j = chatId then t1 else st j) chatId ≠ 0 ∧
        t2 - (fun j => if j = chatId then t1 else st j) chatId < RATE_LIMIT_MS) := by
      simp
      exact ⟨by omega, h12⟩
    have e2 : isRateLimited (fun j => if j = chatId then t1 else st j) chatId t2 =
        (true, fun j => if j = chatId then t1 else st j) := by
      unfold isRateLimited
      dsimp only
      rw [if_pos hc2]
    have hnc3 : ¬((fun j => if j = chatId then t1 else st j) chatId ≠ 0 ∧
        t3 - (fun j => if j = chatId then t1 else st j) chatId < RATE_LIMIT_MS) := by
      simp
      intro _
      omega
    refine ⟨by rw [e1], ?_, ?_⟩
    · rw [e1, e2]
    · rw [e1, e2]
      show (isRateLimited (fun j => if j = chatId then t1 else st j) chatId t3).1
        = false
      unfold isRateLimited
      dsimp only
      rw [if_neg hnc3]

theorem claim_C4_witness :
    ((isRateLimited (fun _ => 0) "7" 1000).1 = false ↔
      ((fun _ : String => 0) "7" = 0 ∨
        RATE_LIMIT_MS ≤ 1000 - (fun _ : String => 0) "7")) ∧
    (isRateLimited (fun _ => 0) "7" 1000).1 = false ∧
    (isRateLimited (isRateLimited (fun _ => 0) "7" 1000).2 "7" 2000).1 = true ∧
    (isRateLimited
      (isRateLimited (isRateLimited (fun _ => 0) "7" 1000).2 "7" 2000).2
      "7" 3000).1 = false :=
  ⟨claim_C4.2.1 (fun _ => 0) "7" 1000,
   claim_C4.2.2.2 (fun _ => 0) "7" 1000 2000 3000 rfl (by decide) (by decide)
     (by decide)⟩

/-- Claim C5: the source's own comment and helper say every error string
reaching the display layer is HTML-escaped, but the non-2xx branch of
`fetchFlipcartInfo` interpolates the upstream `statusText` raw: for a 500
response whose status text carries markup, the produced error string
still contains `<`, which `escapeHtmlEntities` would have removed. -/
theorem claim_C5 :
    fetchFlipcartInfo (.response 500 "<b>x</b>" (.strData "")) =
      .err "HTTP Error: 500 <b>x</b>" ∧
    (handleMobileNumber (fun _ => 0) (fun _ => none) "5" 7
      (.err "HTTP Error: 500 <b>x</b>")).2.2 =
      .errorMsg "HTTP Error: 500 <b>x</b>" ∧
    strContains "HTTP Error: 500 <b>x</b>" "<" = true ∧
    strContains (escapeHtmlEntities "<b>x</b>") "<" = false := by
  decide

/-- Claim C6: the lookup outcome classification — `classifyFetch` mirrors
`fetchFlipcartInfo` branch for branch into the six spec variants.  A
non-2xx response whose body does not signal absence is `HttpError` with
that status; an `ECONNABORTED` rejection is `Timeout`; the request runs
under the fixed 15s timeout; and the classification marks an outcome
successful exactly when `fetchFlipcartInfo` does. -/
theorem claim_C6 :
    (∀ (status : Nat) (statusText : String) (d : AxiosData),
      ¬(200 ≤ status ∧ status < 300) → notFoundSignal d = false →
      classifyFetch (.response status statusText d) = .httpError status)
  ∧ (∀ (code : Option String) (message : String),
      code = some "ECONNABORTED" → classifyFetch (.exn code message) = .timeout)
  ∧ requestTimeoutMs = 15000
  ∧ (∀ (o : FetchOutcome) (d : AxiosData),
      classifyFetch o = .ok d ↔ fetchFlipcartInfo o = .ok d) := by
  refine ⟨?_, ?_, rfl, ?_⟩
  · intro status statusText d hst hnf
    simp [classifyFetch, hnf, hst]
  · intro code message hcode
    simp [classifyFetch, hcode]
  · intro o d
    cases o with
    | response status statusText b =>
      unfold classifyFetch fetchFlipcartInfo
      by_cases hnf : notFoundSignal b
      · simp [hnf]
      · by_cases hst : 200 ≤ status ∧ status < 300
        · by_cases hae : apiErrorSignal b
          · simp [hnf, hst, hae]
          · simp [hnf, hst, hae]
        · simp [hnf, hst]
    | exn code message =>
      unfold classifyFetch fetchFlipcartInfo
      by_cases hcode : code = some "ECONNABORTED"
      · simp [hcode]
      · simp [hcode]

theorem claim_C6_witness :
    classifyFetch (.response 500 "Server Error" (.strData "")) =
      .httpError 500 ∧
    classifyFetch (.exn (some "ECONNABORTED") "timeout of 15000ms exceeded") =
      .timeout :=
  ⟨claim_C6.1 500 "Server Error" (.strData "") (by decide) (by decide),
   claim_C6.2.1 (some "ECONNABORTED") "timeout of 15000ms exceeded" rfl⟩

/-- `updateUser` preserves the subscription invariant whenever the merged
record does. -/
theorem invStore_updateUser (s : Store) (userId : String) (up : UserUpdates)
    (h : InvStore s)
    (hpres : ∀ u, s userId = some u →
      (applyUpdates u up).isSubscribed = true →
      (applyUpdates u up).subscriptionExpiry ≠ none) :
    InvStore (updateUser s userId up) := by
  intro j w hj hsub
  cases hsu : s userId with
  | none =>
    rw [updateUser_absent s userId up hsu] at hj
    exact h j w hj hsub
  | some u =>
    rw [updateUser_present s userId up u hsu] at hj
    dsimp only at hj
    by_cases hji : j = userId
    · subst hji
      rw [if_pos rfl] at hj
      cases hj
      exact hpres u hsu hsub
    · rw [if_neg hji] at hj
      exact h j w hj hsub

/-- A record with a live subscription, for exercising the subscribed
branches on concrete inputs. -/
def sampleSubUser : UserRecord :=
  { chatId := "9"
    username := ""
    firstName := ""
    joinDate := 0
    freeSearchesUsed := 1
    totalSearches := 3
    isSubscribed := true
    subscriptionExpiry := some 100 }

/-- A concrete store holding `sampleSubUser`. -/
def sampleSubStore : Store :=
  fun j => if j = "9" then some sampleSubUser else none

/-- Claim C7: every writer — record creation, subscription grant and
revoke, the lazy-expiry write inside `canUserSearch`, and the usage
commit — preserves the invariant that an active subscription carries a
non-null expiry; and right after any `canUserSearch(id)` the record for
`id` never holds an active subscription whose expiry is at or before the
observation time. -/
theorem claim_C7 :
    (∀ (s : Store) (chatId : String) (now : Nat),
      InvStore s → InvStore (getUser s chatId now).2)
  ∧ (∀ (s : Store) (userId : String) (expiry : Nat),
      InvStore s → InvStore (grantSubscription s userId expiry))
  ∧ (∀ (s : Store) (userId : String),
      InvStore s → InvStore (revokeSubscription s userId))
  ∧ (∀ (s : Store) (chatId : String) (now : Nat),
      InvStore s → InvStore (canUserSearch s chatId now).2)
  ∧ (∀ (s : Store) (userId : String) (a b : Nat),
      InvStore s → InvStore (updateUser s userId
        { totalSearches := some a, freeSearchesUsed := some b }))
  ∧ (∀ (s : Store) (chatId : String) (now : Nat) (w : UserRecord) (e : Nat),
      (canUserSearch s chatId now).2 chatId = some w →
      w.isSubscribed = true → w.subscriptionExpiry = some e → now < e) := by
  refine ⟨?_, ?_, ?_, ?_, ?_, ?_⟩
  · intro s chatId now h j w hj hsub
    cases hsu : s chatId with
    | some u =>
      rw [getUser_some s chatId now u hsu] at hj
      exact h j w hj hsub
    | none =>
      rw [getUser_none s chatId now hsu] at hj
      dsimp only at hj
      by_cases hji : j = chatId
      · subst hji
        rw [if_pos rfl] at hj
        cases hj
        simp [freshUser] at hsub
      · rw [if_neg hji] at hj
        exact h j w hj hsub
  · intro s userId expiry h
    exact invStore_updateUser s userId _ h
      (fun u hu _ => by simp [applyUpdates])
  · intro s userId h
    exact invStore_updateUser s userId _ h
      (fun u hu hs => by simp [applyUpdates] at hs)
  · intro s chatId now h
    cases hsu : s chatId with
    | none =>
      rw [canUserSearch_of_none s chatId now hsu]
      intro j w hj hsub
      dsimp only at hj
      by_cases hji : j = chatId
      · subst hji
        rw [if_pos rfl] at hj
        cases hj
        simp [freshUser] at hsub
      · rw [if_neg hji] at hj
        exact h j w hj hsub
    | some u =>
      cases hsb : u.isSubscribed with
      | false =>
        rw [canUserSearch_of_notSub s chatId now u hsu hsb]
        exact h
      | true =>
        cases hex : u.subscriptionExpiry with
        | none =>
          rw [canUserSearch_of_subNoExpiry s chatId now u hsu hsb hex]
          exact h
        | some exp =>
          by_cases hlt : now < exp
          · rw [canUserSearch_of_active s chatId now u exp hsu hsb hex hlt]
            exact h
          · rw [(canUserSearch_of_expired s chatId now u exp hsu hsb hex hlt).2]
            exact invStore_updateUser s chatId _ h
              (fun u' hu' hs' => by simp [applyUpdates] at hs')
  · intro s userId a b h
    exact invStore_updateUser s userId _ h
      (fun u hu hs => by
        simp [applyUpdates] at hs ⊢
        exact h userId u hu hs)
  · intro s chatId now w e hj hsub hexp
    cases hsu : s chatId with
    | none =>
      rw [canUserSearch_of_none s chatId now hsu] at hj
      dsimp only at hj
      rw [if_pos rfl] at hj
      cases hj
      simp [freshUser] at hsub
    | some u =>
      cases hsb : u.isSubscribed with
      | false =>
        rw [canUserSearch_of_notSub s chatId now u hsu hsb] at hj
        dsimp only at hj
        rw [hsu] at hj
        cases hj
        rw [hsb] at hsub
        cases hsub
      | true =>
        cases hex : u.subscriptionExpiry with
        | none =>
          rw [canUserSearch_of_subNoExpiry s chatId now u hsu hsb hex] at hj
          dsimp only at hj
          rw [hsu] at hj
          cases hj
          rw [hex] at hexp
          cases hexp
        | some exp =>
          by_cases hlt : now < exp
          · rw [canUserSearch_of_active s chatId now u exp hsu hsb hex hlt] at hj
            dsimp only at hj
            rw [hsu] at hj
            cases hj
            rw [hex] at hexp
            cases hexp
            exact hlt
          · rw [(canUserSearch_of_expired s chatId now u exp hsu hsb hex hlt).2]
              at hj
            rw [updateUser_present s chatId _ u hsu] at hj
            dsimp only at hj
            rw [if_pos rfl] at hj
            cases hj
            simp [applyUpdates] at hsub

theorem claim_C7_witness :
    InvStore (grantSubscription sampleStore "42" 99) ∧
    InvStore (canUserSearch sampleStore "42" 5).2 ∧
    (5 : Nat) < 100 :=
  ⟨claim_C7.2.1 sampleStore "42" 99 sampleStore_inv,
   claim_C7.2.2.2.1 sampleStore "42" 5 sampleStore_inv,
   claim_C7.2.2.2.2.2 sampleSubStore "9" 5 sampleSubUser 100 (by decide)
     (by decide) (by decide)⟩

/-- Claim C8: address normalization — the doubled and the single
separator marker each become a comma-space, comma runs collapse, edge
separators are trimmed; on the spec's example the formatter produces
exactly one address field valued `H1, Street, Area`. -/
theorem claim_C8 :
    formatResponseFields (.objData [("address", "H1!!Street!Area")]) =
      [[⟨"Address", "H1, Street, Area", Category.address⟩]] ∧
    cleanAddress "a,,b" = "a, b" ∧
    cleanAddress "!!A!!B!!" = "A, B" := by
  decide

/-- Claim C9: `updateUser` on an absent id is a complete no-op; on an
existing id it rewrites exactly that record to the `Object.assign` merge,
leaves every other id alone, and every field not named in the update
keeps its value. -/
theorem claim_C9 :
    (∀ (s : Store) (userId : String) (up : UserUpdates),
      s userId = none → updateUser s userId up = s)
  ∧ (∀ (s : Store) (userId : String) (up : UserUpdates) (u : UserRecord),
      s userId = some u →
      (updateUser s userId up) userId = some (applyUpdates u up) ∧
      (∀ j, j ≠ userId → (updateUser s userId up) j = s j) ∧
      (up.username = none → (applyUpdates u up).username = u.username) ∧
      (up.firstName = none → (applyUpdates u up).firstName = u.firstName) ∧
      (up.chatId = none → (applyUpdates u up).chatId = u.chatId) ∧
      (up.joinDate = none → (applyUpdates u up).joinDate = u.joinDate) ∧
      (up.freeSearchesUsed = none →
        (applyUpdates u up).freeSearchesUsed = u.freeSearchesUsed) ∧
      (up.totalSearches = none →
        (applyUpdates u up).totalSearches = u.totalSearches) ∧
      (up.isSubscribed = none →
        (applyUpdates u up).isSubscribed = u.isSubscribed) ∧
      (up.subscriptionExpiry = none →
        (applyUpdates u up).subscriptionExpiry = u.subscriptionExpiry)) := by
  constructor
  · intro s userId up h
    exact updateUser_absent s userId up h
  · intro s userId up u h
    refine ⟨?_, ?_, ?_, ?_, ?_, ?_, ?_, ?_, ?_, ?_⟩
    · rw [updateUser_present s userId up u h]
      simp
    · intro j hj
      rw [updateUser_present s userId up u h]
      simp [hj]
    all_goals (intro h0; simp [applyUpdates, h0])

theorem claim_C9_witness :
    updateUser (fun _ => none) "9" { username := some "z" } = (fun _ => none) ∧
    (updateUser sampleStore "42" { username := some "z" }) "42" =
      some (applyUpdates sampleUsedUser { username := some "z" }) ∧
    (applyUpdates sampleUsedUser { username := some "z" }).totalSearches =
      sampleUsedUser.totalSearches :=
  ⟨claim_C9.1 (fun _ => none) "9" { username := some "z" } rfl,
   (claim_C9.2 sampleStore "42" { username := some "z" } sampleUsedUser rfl).1,
   (claim_C9.2 sampleStore "42" { username := some "z" } sampleUsedUser
     rfl).2.2.2.2.2.2.2.1 rfl⟩

/-- Denied calls never move the stored timestamp: a burst of calls inside
the window leaves the limiter map exactly as it was. -/
theorem runLimiter_denied (st : RLState) (chatId : String) (t0 : Nat)
    (h0 : st chatId = t0) (hpos : 0 < t0) :
    ∀ ts : List Nat, (∀ t ∈ ts, t - t0 < RATE_LIMIT_MS) →
      runLimiter st chatId ts = st := by
  intro ts
  induction ts with
  | nil => intro _; rfl
  | cons t ts ih =>
    intro hall
    have hc : (st chatId ≠ 0 ∧ t - st chatId < RATE_LIMIT_MS) := by
      rw [h0]
      exact ⟨by omega, hall t (List.mem_cons_self t ts)⟩
    have e : isRateLimited st chatId t = (true, st) := by
      unfold isRateLimited
      dsimp only
      rw [if_pos hc]
    show runLimiter (isRateLimited st chatId t).2 chatId ts = st
    rw [e]
    exact ih (fun t' ht' => hall t' (List.mem_cons_of_mem t ht'))

/-- Claim C10: a rate-limited call leaves the stored timestamp untouched
(the map is written only on passing calls), so any number of denied calls
inside the window never extends the lockout: a call at least
`RATE_LIMIT_MS` after the last passing one passes. -/
theorem claim_C10 :
    RATE_LIMIT_MS = 2000
  ∧ (∀ (st : RLState) (chatId : String) (now : Nat),
      (isRateLimited st chatId now).1 = true →
      (isRateLimited st chatId now).2 = st)
  ∧ (∀ (st : RLState) (chatId : String) (t0 : Nat) (ts : List Nat) (t' : Nat),
      st chatId = t0 → 0 < t0 → (∀ t ∈ ts, t - t0 < RATE_LIMIT_MS) →
      runLimiter st chatId ts = st ∧
      (RATE_LIMIT_MS ≤ t' - t0 →
        (isRateLimited (runLimiter st chatId ts) chatId t').1 = false)) := by
  refine ⟨rfl, ?_, ?_⟩
  · intro st chatId now h
    unfold isRateLimited at h ⊢
    dsimp only at h ⊢
    split <;> simp_all
  · intro st chatId t0 ts t' h0 hpos hall
    have hrun := runLimiter_denied st chatId t0 h0 hpos ts hall
    refine ⟨hrun, ?_⟩
    intro hge
    rw [hrun]
    have hnc : ¬(st chatId ≠ 0 ∧ t' - st chatId < RATE_LIMIT_MS) := by
      rw [h0]
      unfold RATE_LIMIT_MS at hge ⊢
      omega
    unfold isRateLimited
    dsimp only
    rw [if_neg hnc]

theorem claim_C10_witness :
    (isRateLimited (fun j => if j = "7" then 1000 else 0) "7" 1500).2 =
      (fun j => if j = "7" then 1000 else 0) ∧
    runLimiter (fun j => if j = "7" then 1000 else 0) "7" [1500, 1700] =
      (fun j => if j = "7" then 1000 else 0) ∧
    (isRateLimited (runLimiter (fun j => if j = "7" then 1000 else 0) "7"
      [1500, 1700]) "7" 3000).1 = false := by
  have h := claim_C10.2.2 (fun j => if j = "7" then 1000 else 0) "7" 1000
    [1500, 1700] 3000 rfl (by decide) (by decide)
  exact ⟨claim_C10.2.1 (fun j => if j = "7" then 1000 else 0) "7" 1500 (by decide),
    h.1, h.2 (by decide)⟩

end BotPlayer
